import Mathlib

/-!
# librealsense, `src/f200-private.h`: the F200 / SR300 hardware-interface declarations

A shallow embedding of the declarations of `f200-private.h` (namespace
`rsimpl::f200`): the preprocessor constants, the opcode enumeration, the
command structures and their constructor, the calibration table types with
their byte layout, the thermal-loop parameters with their default member
initialisers, and the engine class `IVCAMHardwareIO` with its inline accessor
`GetParameters`.

Conventions of the embedding.

* A C `float` value is represented by the rational number it denotes
  (`CFloat`); a decimal literal that is not a binary fraction is written as the
  exact value of the nearest single-precision number.
* `int` and `long` values are integers (`Int`); no arithmetic of the header
  overflows.
* A fixed-size C array `T a[N]` is a function `Fin N → T`, so its capacity is
  part of its type.
* The byte layout of a struct is computed from its member list by the natural
  alignment rule every mainstream ABI uses for these member types (each member
  at the next multiple of its alignment, the struct padded to a multiple of its
  strictest member alignment); the header has no packing pragma.
* A C++ reference is a value of an explicit reference type that is read
  against an engine state.
* Operations the header only declares (the channel, `update_asic_coefficients`,
  `read_f200_calibration`, the loop's publication step) have no body to embed;
  their definitions follow the specification and say so.
-/

namespace f200

/-! ## Preprocessor constants -/

/-- C `float` values, as the rationals they denote. -/
abbrev CFloat := ℚ

/-- A byte. -/
abbrev Byte := Fin 256

/-- Constant `#define DELTA_INF (10000000.0)`. -/
def DELTA_INF : CFloat := 10000000

/-- Constant `#define HW_MONITOR_COMMAND_SIZE (1000)`. -/
def HW_MONITOR_COMMAND_SIZE : Nat := 1000

/-- Constant `#define HW_MONITOR_BUFFER_SIZE (1000)`. -/
def HW_MONITOR_BUFFER_SIZE : Nat := 1000

/-- Size and alignment, in bytes, of a C object type. -/
structure CType where
  size : Nat
  align : Nat
deriving DecidableEq, Repr

namespace CType

/-- Type `int16_t`. -/
def int16_t : CType := ⟨2, 2⟩
/-- Type `uint16_t`. -/
def uint16_t : CType := ⟨2, 2⟩
/-- Type `uint32_t`. -/
def uint32_t : CType := ⟨4, 4⟩
/-- Type `uint8_t`. -/
def uint8_t : CType := ⟨1, 1⟩
/-- Type `int` (32 bits on every platform the library builds for). -/
def int : CType := ⟨4, 4⟩
/-- Type `float` (IEEE-754 single precision). -/
def float : CType := ⟨4, 4⟩

/-- Array type `T [n]`: `n` consecutive elements, aligned as one element. -/
def array (t : CType) (n : Nat) : CType := ⟨t.size * n, t.align⟩

end CType

/-- One member of a struct: its name and its type. -/
structure Member where
  name : String
  type : CType
deriving DecidableEq, Repr

/-- The least multiple of `a` that is at least `off`. -/
def alignUp (off a : Nat) : Nat := (off + a - 1) / a * a

/-- One placed member: name, byte offset, byte size. -/
structure Placed where
  name : String
  offset : Nat
  size : Nat
deriving DecidableEq, Repr

/-- Places the members in declaration order starting at byte `off`, each at the
next multiple of its alignment. -/
def placeMembers : Nat → List Member → List Placed
  | _, [] => []
  | off, m :: ms =>
    let o := alignUp off m.type.align
    ⟨m.name, o, m.type.size⟩ :: placeMembers (o + m.type.size) ms

/-- Places the members in declaration order starting at byte `off` with no gap
between them: the layout when nothing is padded. -/
def placePacked : Nat → List Member → List Placed
  | _, [] => []
  | off, m :: ms => ⟨m.name, off, m.type.size⟩ :: placePacked (off + m.type.size) ms

/-- The first byte after the last placed member. -/
def endOffset : Nat → List Member → Nat
  | off, [] => off
  | off, m :: ms => endOffset (alignUp off m.type.align + m.type.size) ms

/-- The alignment of a struct: the strictest alignment among its members. -/
def structAlign (ms : List Member) : Nat :=
  ms.foldl (fun a m => max a m.type.align) 1

/-- The struct type with the given members: its size is the end of the last
member rounded up to the struct's alignment. -/
def CType.struct (ms : List Member) : CType :=
  ⟨alignUp (endOffset 0 ms) (structAlign ms), structAlign ms⟩

/-- The byte offset of the member called `name` (`offsetof`). -/
def offsetOf (ms : List Member) (name : String) : Option Nat :=
  ((placeMembers 0 ms).find? (fun p => p.name == name)).map Placed.offset

/-- The sum of the members' own sizes: what the struct would occupy with no
padding at all. -/
def packedSize (ms : List Member) : Nat :=
  (ms.map (fun m => m.type.size)).sum

/-- The members of `struct IVCAMTemperatureData` (three floats). -/
def IVCAMTemperatureData.members : List Member :=
  [⟨"LiguriaTemp", CType.float⟩, ⟨"IRTemp", CType.float⟩, ⟨"AmbientTemp", CType.float⟩]

/-- The object type of `struct IVCAMTemperatureData`. -/
def IVCAMTemperatureData.ctype : CType := CType.struct IVCAMTemperatureData.members

/-- The members of `struct CameraCalibrationParameters`, in declaration order;
a two-dimensional array `float K[r][c]` is an array of `r` arrays of `c`
floats. -/
def CameraCalibrationParameters.members : List Member :=
  [ ⟨"Rmax", CType.float⟩,
    ⟨"Kc", (CType.float.array 3).array 3⟩,
    ⟨"Distc", CType.float.array 5⟩,
    ⟨"Invdistc", CType.float.array 5⟩,
    ⟨"Pp", (CType.float.array 4).array 3⟩,
    ⟨"Kp", (CType.float.array 3).array 3⟩,
    ⟨"Rp", (CType.float.array 3).array 3⟩,
    ⟨"Tp", CType.float.array 3⟩,
    ⟨"Distp", CType.float.array 5⟩,
    ⟨"Invdistp", CType.float.array 5⟩,
    ⟨"Pt", (CType.float.array 4).array 3⟩,
    ⟨"Kt", (CType.float.array 3).array 3⟩,
    ⟨"Rt", (CType.float.array 3).array 3⟩,
    ⟨"Tt", CType.float.array 3⟩,
    ⟨"Distt", CType.float.array 5⟩,
    ⟨"Invdistt", CType.float.array 5⟩,
    ⟨"QV", CType.float.array 6⟩ ]

/-- The object type of `struct CameraCalibrationParameters`. -/
def CameraCalibrationParameters.ctype : CType :=
  CType.struct CameraCalibrationParameters.members

/-- The members of `struct IVCAMCalibration`, the F200 (Variant A) table. -/
def IVCAMCalibration.members : List Member :=
  [ ⟨"uniqueNumber", CType.int⟩,
    ⟨"TableValidation", CType.int16_t⟩,
    ⟨"TableVersion", CType.int16_t⟩,
    ⟨"CalibrationParameters", CameraCalibrationParameters.ctype⟩ ]

/-- The object type of `struct IVCAMCalibration`. -/
def IVCAMCalibration.ctype : CType := CType.struct IVCAMCalibration.members

/-- The members of `struct SR300RawCalibration`, the SR300 (Variant B) table. -/
def SR300RawCalibration.members : List Member :=
  [ ⟨"tableVersion", CType.uint16_t⟩,
    ⟨"tableID", CType.uint16_t⟩,
    ⟨"dataSize", CType.uint32_t⟩,
    ⟨"reserved", CType.uint32_t⟩,
    ⟨"crc", CType.int⟩,
    ⟨"CalibrationParameters", CameraCalibrationParameters.ctype⟩,
    ⟨"reserved_1", CType.uint8_t.array 176⟩,
    ⟨"TemperatureData", IVCAMTemperatureData.ctype⟩,
    ⟨"reserved21", CType.uint8_t.array 148⟩ ]

/-- The object type of `struct SR300RawCalibration`. -/
def SR300RawCalibration.ctype : CType := CType.struct SR300RawCalibration.members

/-! ## The opcode enumeration and the command structures -/

/-- The enumerators of `enum class IVCAMMonitorCommand : uint32_t`, in
declaration order. -/
inductive IVCAMMonitorCommand where
  | UpdateCalib
  | GetIRTemp
  | GetMEMSTemp
  | HWReset
  | GVD
  | BIST
  | GoToDFU
  | GetCalibrationTable
  | DebugFormat
  | TimeStampEnable
  | GetPowerGearState
  | SetDefaultControls
  | GetDefaultControls
  | GetFWLastError
  | CheckI2cConnect
  | CheckRGBConnect
  | CheckDPTConnect
deriving DecidableEq, Repr

namespace IVCAMMonitorCommand

/-- The `uint32_t` value the header gives each enumerator: the opcode on the
wire. -/
def value : IVCAMMonitorCommand → Nat
  | UpdateCalib => 0xBC
  | GetIRTemp => 0x52
  | GetMEMSTemp => 0x0A
  | HWReset => 0x28
  | GVD => 0x3B
  | BIST => 0xFF
  | GoToDFU => 0x80
  | GetCalibrationTable => 0x3D
  | DebugFormat => 0x0B
  | TimeStampEnable => 0x0C
  | GetPowerGearState => 0xFF
  | SetDefaultControls => 0xA6
  | GetDefaultControls => 0xA7
  | GetFWLastError => 0x0E
  | CheckI2cConnect => 0x4A
  | CheckRGBConnect => 0x4B
  | CheckDPTConnect => 0x4C

end IVCAMMonitorCommand

/-- The data members of `struct IVCAMCommand`. -/
structure IVCAMCommand where
  cmd : IVCAMMonitorCommand
  Param1 : Int
  Param2 : Int
  Param3 : Int
  Param4 : Int
  data : Fin HW_MONITOR_BUFFER_SIZE → Byte
  sizeOfSendCommandData : Int
  TimeOut : Int
  oneDirection : Bool
  receivedCommandData : Fin HW_MONITOR_BUFFER_SIZE → Byte
  receivedCommandDataLength : Int
  receivedOpcode : Fin 4 → Byte

namespace IVCAMCommand

/-- The constructor `IVCAMCommand(IVCAMMonitorCommand cmd)`. It assigns eight
members; the four it does not assign (`data`, `receivedCommandData`,
`receivedCommandDataLength`, `receivedOpcode`) keep whatever the object's
storage held, which is the argument `storage`. -/
def new (storage : IVCAMCommand) (cmd : IVCAMMonitorCommand) : IVCAMCommand :=
  { storage with
    cmd := cmd
    Param1 := 0
    Param2 := 0
    Param3 := 0
    Param4 := 0
    sizeOfSendCommandData := 0
    TimeOut := 5000
    oneDirection := false }

/-- The payload of a request: the first `sizeOfSendCommandData` bytes of
`data`. -/
def payload (c : IVCAMCommand) : List Byte :=
  (List.ofFn c.data).take c.sizeOfSendCommandData.toNat

/-- The capacity of the member `data`, in bytes. -/
def dataCapacity (c : IVCAMCommand) : Nat := (List.ofFn c.data).length

/-- The capacity of the member `receivedCommandData`, in bytes. -/
def receivedCapacity (c : IVCAMCommand) : Nat := (List.ofFn c.receivedCommandData).length

end IVCAMCommand

/-- The data members of `struct IVCAMCommandDetails`. -/
structure IVCAMCommandDetails where
  oneDirection : Bool
  sendCommandData : Fin HW_MONITOR_COMMAND_SIZE → Byte
  sizeOfSendCommandData : Int
  TimeOut : Int
  receivedOpcode : Fin 4 → Byte
  receivedCommandData : Fin HW_MONITOR_BUFFER_SIZE → Byte
  receivedCommandDataLength : Int

namespace IVCAMCommandDetails

/-- The capacity of the member `receivedCommandData`, in bytes. -/
def receivedCapacity (d : IVCAMCommandDetails) : Nat :=
  (List.ofFn d.receivedCommandData).length

end IVCAMCommandDetails

/-! ## The wire format of a request -/

/-- The four bytes of a 32-bit number, least significant first. -/
def le32 (n : Nat) : List Byte :=
  [Fin.ofNat n, Fin.ofNat (n / 256), Fin.ofNat (n / 65536), Fin.ofNat (n / 16777216)]

/-- The 32-bit two's-complement pattern of an `int`. -/
def intBits (i : Int) : Nat := (i % 4294967296).toNat

/-- Modelled from the spec: the function that serialises a request is not in
the header. Section 6 gives the request on the wire as
opcode(4B), Param1..4(4B each), payload, little-endian. -/
def serialise (c : IVCAMCommand) : List Byte :=
  le32 c.cmd.value ++ le32 (intBits c.Param1) ++ le32 (intBits c.Param2) ++
    le32 (intBits c.Param3) ++ le32 (intBits c.Param4) ++ c.payload

/-! ## Calibration values, thermal-loop parameters, coefficient table -/

/-- The values of `struct IVCAMTemperatureData`. -/
structure IVCAMTemperatureData where
  LiguriaTemp : CFloat
  IRTemp : CFloat
  AmbientTemp : CFloat

/-- The values of `struct IVCAMThermalLoopParams`; each default is the member's
default initialiser in the header. -/
structure IVCAMThermalLoopParams where
  IRThermalLoopEnable : CFloat := 1
  TimeOutA : CFloat := 10000
  TimeOutB : CFloat := 0
  TimeOutC : CFloat := 0
  TransitionTemp : CFloat := 3
  TempThreshold : CFloat := 2
  /-- Literal `0.025f`. -/
  HFOVsensitivity : CFloat := 13421773 / 2 ^ 29
  /-- Literal `-0.003696988f`. -/
  FcxSlopeA : CFloat := -15878443 / 2 ^ 32
  /-- Literal `0.005809239f`. -/
  FcxSlopeB : CFloat := 6237623 / 2 ^ 30
  FcxSlopeC : CFloat := 0
  FcxOffset : CFloat := 0
  /-- Literal `-0.000210918f`. -/
  UxSlopeA : CFloat := -14494175 / 2 ^ 36
  /-- Literal `0.000034253955f`. -/
  UxSlopeB : CFloat := 9415655 / 2 ^ 38
  UxSlopeC : CFloat := 0
  UxOffset : CFloat := 0
  LiguriaTempWeight : CFloat := 1
  IrTempWeight : CFloat := 0
  AmbientTempWeight : CFloat := 0
  Param1 : CFloat := 0
  Param2 : CFloat := 0
  Param3 : CFloat := 0
  Param4 : CFloat := 0
  Param5 : CFloat := 0

/-- The default-initialised `IVCAMThermalLoopParams` (the C++ expression
`IVCAMThermalLoopParams{}`): every member has its default initialiser. -/
def IVCAMThermalLoopParams.init : IVCAMThermalLoopParams := {}

/-- The values of `struct CameraCalibrationParameters`. -/
structure CameraCalibrationParameters where
  Rmax : CFloat
  Kc : Fin 3 → Fin 3 → CFloat
  Distc : Fin 5 → CFloat
  Invdistc : Fin 5 → CFloat
  Pp : Fin 3 → Fin 4 → CFloat
  Kp : Fin 3 → Fin 3 → CFloat
  Rp : Fin 3 → Fin 3 → CFloat
  Tp : Fin 3 → CFloat
  Distp : Fin 5 → CFloat
  Invdistp : Fin 5 → CFloat
  Pt : Fin 3 → Fin 4 → CFloat
  Kt : Fin 3 → Fin 3 → CFloat
  Rt : Fin 3 → Fin 3 → CFloat
  Tt : Fin 3 → CFloat
  Distt : Fin 5 → CFloat
  Invdistt : Fin 5 → CFloat
  QV : Fin 6 → CFloat

/-- A calibration whose `Rmax` is `r` and whose other entries are all zero:
test data. -/
def flatCalibration (r : CFloat) : CameraCalibrationParameters :=
  { Rmax := r
    Kc := fun _ _ => 0
    Distc := fun _ => 0
    Invdistc := fun _ => 0
    Pp := fun _ _ => 0
    Kp := fun _ _ => 0
    Rp := fun _ _ => 0
    Tp := fun _ => 0
    Distp := fun _ => 0
    Invdistp := fun _ => 0
    Pt := fun _ _ => 0
    Kt := fun _ _ => 0
    Rt := fun _ _ => 0
    Tt := fun _ => 0
    Distt := fun _ => 0
    Invdistt := fun _ => 0
    QV := fun _ => 0 }

/-! ## The engine `IVCAMHardwareIO` -/

/-- The data members of `class IVCAMHardwareIO` that hold calibration state.
`temperatureMutex` is `true` while some thread holds the mutex. The device
handle, `usbMutex`, the thread object and the condition variable carry no data
the accessor touches and are left out. `last_temperature_delta` has the header's
default member initialiser. -/
structure IVCAMHardwareIO where
  base_calibration : CameraCalibrationParameters
  base_temperature_data : IVCAMTemperatureData
  thermal_loop_params : IVCAMThermalLoopParams
  compensated_calibration : CameraCalibrationParameters
  last_temperature_delta : CFloat := DELTA_INF
  runTemperatureThread : Bool
  temperatureMutex : Bool

/-- An lvalue of type `CameraCalibrationParameters &` into an engine: which
member it is bound to. -/
inductive CalibrationRef where
  | base_calibration
  | compensated_calibration
deriving DecidableEq, Repr

/-- Reads through a reference: the current value of the member it is bound
to. -/
def CalibrationRef.read (r : CalibrationRef) ( s : IVCAMHardwareIO) :
    CameraCalibrationParameters :=
  match r with
  | .base_calibration => s.base_calibration
  | .compensated_calibration => s.compensated_calibration

namespace IVCAMHardwareIO

/-- The engine as its members are initialised at construction: the four
members without a default initialiser receive what the constructor loaded, the
thread flag starts as given, the mutex starts free, and
`last_temperature_delta` takes its default member initialiser. -/
def construct (base : CameraCalibrationParameters) (temperature : IVCAMTemperatureData)
    (params : IVCAMThermalLoopParams) (snapshot : CameraCalibrationParameters)
    (run : Bool) : IVCAMHardwareIO :=
  { base_calibration := base
    base_temperature_data := temperature
    thermal_loop_params := params
    compensated_calibration := snapshot
    runTemperatureThread := run
    temperatureMutex := false }

/-- The inline accessor
`CameraCalibrationParameters & GetParameters()`, whose body is
`std::lock_guard<std::mutex> guard(temperatureMutex); return compensated_calibration;`.
The guard takes the mutex (the call cannot proceed while another thread holds
it: `none`), the return statement binds the returned reference to the member
`compensated_calibration`, and the guard releases the mutex as the function
returns. The result is the reference and the state at return. -/
def GetParameters ( s : IVCAMHardwareIO) : Option (CalibrationRef × IVCAMHardwareIO) :=
  if s.temperatureMutex then none
  else
    let locked := { s with temperatureMutex := true }
    let result := CalibrationRef.compensated_calibration
    let unlocked := { locked with temperatureMutex := false }
    some (result, unlocked)

/-- Modelled from the spec: `TemperatureControlLoop` is declared in the header
and its body is not there. Section 4.3 has the loop publish a recomputed
calibration "by replacing the guarded snapshot atomically", under the snapshot
lock: the mutex is taken, the member is assigned, the mutex is released. -/
def publish ( s : IVCAMHardwareIO) (c : CameraCalibrationParameters) :
    Option IVCAMHardwareIO :=
  if s.temperatureMutex then none
  else
    let locked := { s with temperatureMutex := true }
    let replaced := { locked with compensated_calibration := c }
    some { replaced with temperatureMutex := false }

end IVCAMHardwareIO

/-! ## The command channel, the control operation and the Variant A loader -/

/-- The failure kinds of section 7 of the specification. -/
inductive Failure where
  | TransportError
  | Timeout
  | ProtocolError
  | CorruptCalibration
  | ValidationError
  | UnsupportedVariant
deriving DecidableEq, Repr

/-- What the transport gives back when a reply to a request is read: nothing
at all, a transport-level read failure, or the reply bytes after a number of
milliseconds. -/
inductive Reply where
  | silent
  | failed
  | answered (after : Nat) (bytes : List Byte)
deriving DecidableEq, Repr

/-- Modelled from the spec: the transport handle `uvc::device` comes from
`uvc.h`, which is not among the sources. Section 1 treats it as a black box
exposing byte-level writes and reads, and section 7 lets its I/O fail
(`TransportError`). Here it is the log of the write calls made on it, oldest
first, whether it accepts a write of given bytes, and what reading the reply to
a request gives. -/
structure Device where
  written : List (List Byte)
  accepts : List Byte → Bool
  reply : List Byte → Reply

/-- Modelled from the spec: the channel lock `std::timed_mutex`, the parameter
`mutex` of every operation declared in the header, as one caller sees it: for
how many more milliseconds another thread holds it (0 when it is free). -/
structure TimedMutex where
  heldFor : Nat
deriving DecidableEq, Repr

/-- The response payload of a command: the first `receivedCommandDataLength`
bytes of `receivedCommandData`. -/
def IVCAMCommand.received (c : IVCAMCommand) : List Byte :=
  (List.ofFn c.receivedCommandData).take c.receivedCommandDataLength.toNat

/-- Modelled from the spec: the channel's `send` is not in the header.
Section 5: the caller blocks until the channel is free or its request's timeout
elapses (`Timeout`, nothing written). Section 4.1, in its order: a request
whose payload exceeds 1000 bytes is rejected with `ValidationError` before the
transport is touched; the request is written (the write call is logged;
`TransportError` when the transport refuses it); a one-direction request
returns at once; otherwise the reply is awaited, bounded by the request's
timeout (`Timeout` when none comes in time, `TransportError` when the read
fails); the reply's opcode (its first four bytes) must equal the request's and
its payload must not exceed 1000 bytes (`ProtocolError`); payload and length
are copied into the response members of the command. The lock is released at
the end of the exchange. -/
def send (device : Device) (mutex : TimedMutex) (request : IVCAMCommand) :
    Except Failure IVCAMCommand × Device :=
  if request.TimeOut < (mutex.heldFor : Int) then (.error .Timeout, device)
  else if (HW_MONITOR_BUFFER_SIZE : Int) < request.sizeOfSendCommandData then
    (.error .ValidationError, device)
  else
    let bytes := serialise request
    let device1 := { device with written := device.written ++ [bytes] }
    if device.accepts bytes = false then (.error .TransportError, device1)
    else if request.oneDirection = true then (.ok request, device1)
    else
      match device.reply bytes with
      | .silent => (.error .Timeout, device1)
      | .failed => (.error .TransportError, device1)
      | .answered after r =>
        if request.TimeOut < (after : Int) then (.error .Timeout, device1)
        else if r.take 4 ≠ le32 request.cmd.value ∨
            HW_MONITOR_BUFFER_SIZE < (r.drop 4).length then
          (.error .ProtocolError, device1)
        else
          (.ok { request with
                 receivedOpcode := fun i => (r.take 4).getD i.val 0
                 receivedCommandData :=
                   fun i => (r.drop 4).getD i.val (request.receivedCommandData i)
                 receivedCommandDataLength := (r.drop 4).length }, device1)

/-- Modelled from the spec: `read_f200_calibration`, the loader of the Variant
A table, is only declared in the header (it returns calibration parameters,
temperature data and thermal-loop parameters); its body is not there. Section
4.2: it sends a "get calibration table" command and decodes the result; the
Variant A table contains only calibration parameters, and the thermal
configuration returned is the default one. The validation of the marker and the
version and the decoding of the table bytes, whose details the spec does not
give, are the parameter `decode`. -/
def read_f200_calibration
    (decode : List Byte → Except Failure (CameraCalibrationParameters × IVCAMTemperatureData))
    (storage : IVCAMCommand) (device : Device) (mutex : TimedMutex) :
    Except Failure
      (CameraCalibrationParameters × IVCAMTemperatureData × IVCAMThermalLoopParams) × Device :=
  let outcome := send device mutex (IVCAMCommand.new storage .GetCalibrationTable)
  match outcome.1 with
  | .error e => (.error e, outcome.2)
  | .ok response =>
    match decode response.received with
    | .error e => (.error e, outcome.2)
    | .ok table => (.ok (table.1, table.2, IVCAMThermalLoopParams.init), outcome.2)

/-! ## Test data -/

/-- An engine whose baseline and published calibration are both
`flatCalibration 1`, with the default thermal parameters and the loop running:
test data. -/
def exampleEngine : IVCAMHardwareIO :=
  IVCAMHardwareIO.construct (flatCalibration 1) ⟨25, 25, 25⟩ IVCAMThermalLoopParams.init
    (flatCalibration 1) true

/-- A command object whose members are all zero (opcode `UpdateCalib`): test
data for the storage a command is constructed in. -/
def zeroCommand : IVCAMCommand :=
  { cmd := .UpdateCalib
    Param1 := 0
    Param2 := 0
    Param3 := 0
    Param4 := 0
    data := fun _ => 0
    sizeOfSendCommandData := 0
    TimeOut := 0
    oneDirection := false
    receivedCommandData := fun _ => 0
    receivedCommandDataLength := 0
    receivedOpcode := fun _ => 0 }

/-- A transport on which nothing has been written, which accepts every write
and whose controller answers every request with the `GetCalibrationTable`
opcode followed by 456 zero bytes: test data. -/
def tableDevice : Device :=
  { written := []
    accepts := fun _ => true
    reply := fun _ => .answered 0 (le32 0x3D ++ List.replicate 456 0) }

/-- A table decoder that accepts every table and reads `flatCalibration 1` and
a temperature sample of 25 degrees from it: test data. -/
def flatDecode : List Byte →
    Except Failure (CameraCalibrationParameters × IVCAMTemperatureData) :=
  fun _ => .ok (flatCalibration 1, ⟨25, 25, 25⟩)

/-- The members of `struct IVCAMThermalLoopParams`: 23 floats. -/
def IVCAMThermalLoopParams.members : List Member :=
  [ ⟨"IRThermalLoopEnable", CType.float⟩, ⟨"TimeOutA", CType.float⟩,
    ⟨"TimeOutB", CType.float⟩, ⟨"TimeOutC", CType.float⟩,
    ⟨"TransitionTemp", CType.float⟩, ⟨"TempThreshold", CType.float⟩,
    ⟨"HFOVsensitivity", CType.float⟩, ⟨"FcxSlopeA", CType.float⟩,
    ⟨"FcxSlopeB", CType.float⟩, ⟨"FcxSlopeC", CType.float⟩,
    ⟨"FcxOffset", CType.float⟩, ⟨"UxSlopeA", CType.float⟩,
    ⟨"UxSlopeB", CType.float⟩, ⟨"UxSlopeC", CType.float⟩,
    ⟨"UxOffset", CType.float⟩, ⟨"LiguriaTempWeight", CType.float⟩,
    ⟨"IrTempWeight", CType.float⟩, ⟨"AmbientTempWeight", CType.float⟩,
    ⟨"Param1", CType.float⟩, ⟨"Param2", CType.float⟩, ⟨"Param3", CType.float⟩,
    ⟨"Param4", CType.float⟩, ⟨"Param5", CType.float⟩ ]

/-- The object type of `struct IVCAMThermalLoopParams`. -/
def IVCAMThermalLoopParams.ctype : CType := CType.struct IVCAMThermalLoopParams.members

/-! ## Layout of the calibration tables -/

/-- C2: `SR300RawCalibration` has the on-wire layout of the Variant B table:
tableVersion 2 bytes at offset 0, tableID 2 bytes at 2, dataSize 4 bytes at 4,
reserved 4 bytes at 8, crc 4 bytes at 12, the calibration parameters (112
floats, 448 bytes) at 16, a reserved block of 176 bytes at 464, the
temperature sample (3 floats, 12 bytes) at 640, a reserved block of 148 bytes
at 652; the total is 800 bytes, which is the sum of the member sizes, so there
is no padding. -/
theorem SR300RawCalibration_layout :
    placeMembers 0 SR300RawCalibration.members =
      [ ⟨"tableVersion", 0, 2⟩, ⟨"tableID", 2, 2⟩, ⟨"dataSize", 4, 4⟩,
        ⟨"reserved", 8, 4⟩, ⟨"crc", 12, 4⟩, ⟨"CalibrationParameters", 16, 448⟩,
        ⟨"reserved_1", 464, 176⟩, ⟨"TemperatureData", 640, 12⟩,
        ⟨"reserved21", 652, 148⟩ ] ∧
      SR300RawCalibration.ctype.size = 800 ∧
      placeMembers 0 SR300RawCalibration.members =
        placePacked 0 SR300RawCalibration.members ∧
      packedSize SR300RawCalibration.members = SR300RawCalibration.ctype.size ∧
      CameraCalibrationParameters.ctype.size = 112 * CType.float.size ∧
      packedSize CameraCalibrationParameters.members =
        CameraCalibrationParameters.ctype.size ∧
      IVCAMTemperatureData.ctype.size = 3 * CType.float.size := by
  decide

/-- C3, as stated, fails: in `IVCAMCalibration` the validation marker is not at
offset 0, the version is not at offset 2, the calibration parameters are not at
offset 4 and the table is not 452 bytes long. -/
theorem IVCAMCalibration_not_validation_first :
    offsetOf IVCAMCalibration.members "TableValidation" ≠ some 0 ∧
      offsetOf IVCAMCalibration.members "TableVersion" ≠ some 2 ∧
      offsetOf IVCAMCalibration.members "CalibrationParameters" ≠ some 4 ∧
      IVCAMCalibration.ctype.size ≠ 452 := by
  decide

/-- C3, amended: `IVCAMCalibration` is a fixed struct of the 4-byte
`uniqueNumber` at offset 0, the 2-byte validation marker at offset 4, the
2-byte version at offset 6 and the calibration parameters (448 bytes) at offset
8; the whole table is 8 + 448 = 456 bytes, with no padding. -/
theorem IVCAMCalibration_layout :
    placeMembers 0 IVCAMCalibration.members =
      [ ⟨"uniqueNumber", 0, 4⟩, ⟨"TableValidation", 4, 2⟩, ⟨"TableVersion", 6, 2⟩,
        ⟨"CalibrationParameters", 8, 448⟩ ] ∧
      offsetOf IVCAMCalibration.members "uniqueNumber" = some 0 ∧
      offsetOf IVCAMCalibration.members "TableValidation" = some 4 ∧
      offsetOf IVCAMCalibration.members "TableVersion" = some 6 ∧
      offsetOf IVCAMCalibration.members "CalibrationParameters" = some 8 ∧
      IVCAMCalibration.ctype.size = 8 + 448 ∧
      placeMembers 0 IVCAMCalibration.members = placePacked 0 IVCAMCalibration.members ∧
      packedSize IVCAMCalibration.members = IVCAMCalibration.ctype.size := by
  decide

/-- The capacity of `receivedCommandData` is `HW_MONITOR_BUFFER_SIZE`. -/
theorem IVCAMCommand.receivedCapacity_eq (c : IVCAMCommand) :
    c.receivedCapacity = HW_MONITOR_BUFFER_SIZE := by
  exact List.length_ofFn _

/-- The capacity of `data` is `HW_MONITOR_BUFFER_SIZE`. -/
theorem IVCAMCommand.dataCapacity_eq (c : IVCAMCommand) :
    c.dataCapacity = HW_MONITOR_BUFFER_SIZE := by
  exact List.length_ofFn _

/-- C8: each raw calibration table fits in one command response: the sizes
of `IVCAMCalibration` and of `SR300RawCalibration`, computed from their member
lists, are at most the capacity of `IVCAMCommand.receivedCommandData`, which is
`HW_MONITOR_BUFFER_SIZE` = 1000 bytes. -/
theorem calibration_tables_fit_one_response (c : IVCAMCommand) :
    IVCAMCalibration.ctype.size ≤ c.receivedCapacity ∧
      SR300RawCalibration.ctype.size ≤ c.receivedCapacity ∧
      c.receivedCapacity = HW_MONITOR_BUFFER_SIZE ∧
      HW_MONITOR_BUFFER_SIZE = 1000 := by
  rw [IVCAMCommand.receivedCapacity_eq]
  decide

/-! ## The opcode enumeration -/

/-- C9: two distinct enumerators of `IVCAMMonitorCommand` have the same wire
value exactly when they are `BIST` and `GetPowerGearState` (both 0xFF); the six
opcodes of the loader, the temperature reader and the control operations have
the values 0x3D, 0x0A, 0x52, 0x28, 0x0C, 0xBC, which are pairwise distinct. -/
theorem opcode_values_shared_only_by_BIST_GetPowerGearState :
    (∀ a b : IVCAMMonitorCommand, a ≠ b →
        (a.value = b.value ↔
          (a = .BIST ∧ b = .GetPowerGearState) ∨ (a = .GetPowerGearState ∧ b = .BIST))) ∧
      IVCAMMonitorCommand.BIST.value = 0xFF ∧
      IVCAMMonitorCommand.GetPowerGearState.value = 0xFF ∧
      ([IVCAMMonitorCommand.GetCalibrationTable, .GetMEMSTemp, .GetIRTemp, .HWReset,
          .TimeStampEnable, .UpdateCalib].map IVCAMMonitorCommand.value =
        [0x3D, 0x0A, 0x52, 0x28, 0x0C, 0xBC]) ∧
      ([IVCAMMonitorCommand.GetCalibrationTable, .GetMEMSTemp, .GetIRTemp, .HWReset,
          .TimeStampEnable, .UpdateCalib].map IVCAMMonitorCommand.value).Pairwise
        (fun x y => x ≠ y) := by
  refine ⟨?_, rfl, rfl, rfl, by decide⟩
  intro a b
  cases a <;> cases b <;> simp [IVCAMMonitorCommand.value]

/-! ## The command constructor -/

/-- C4: for every opcode `c` (and whatever the storage held), the request
built by `IVCAMCommand(c)` has `cmd = c`, the four parameters 0, an empty
payload (`sizeOfSendCommandData = 0`), `TimeOut = 5000` and
`oneDirection = false`. -/
theorem IVCAMCommand_new_fields (storage : IVCAMCommand) (c : IVCAMMonitorCommand) :
    (IVCAMCommand.new storage c).cmd = c ∧
      (IVCAMCommand.new storage c).Param1 = 0 ∧
      (IVCAMCommand.new storage c).Param2 = 0 ∧
      (IVCAMCommand.new storage c).Param3 = 0 ∧
      (IVCAMCommand.new storage c).Param4 = 0 ∧
      (IVCAMCommand.new storage c).sizeOfSendCommandData = 0 ∧
      (IVCAMCommand.new storage c).payload = [] ∧
      (IVCAMCommand.new storage c).TimeOut = 5000 ∧
      (IVCAMCommand.new storage c).oneDirection = false := by
  exact ⟨rfl, rfl, rfl, rfl, rfl, rfl, rfl, rfl, rfl⟩

/-! ## The engine: initial delta and the read accessor -/

/-- C10: a newly constructed engine's `last_temperature_delta` is
`DELTA_INF` = 10000000, and with the default `TempThreshold` = 2 every first
delta `d` with `|d| < 9999998` differs from it by more than the threshold. -/
theorem first_delta_exceeds_default_threshold (base : CameraCalibrationParameters)
    (temperature : IVCAMTemperatureData) (params : IVCAMThermalLoopParams)
    (snapshot : CameraCalibrationParameters) (run : Bool) (d : CFloat)
    (h : abs d < 9999998) :
    ( IVCAMHardwareIO.construct base temperature params snapshot run).last_temperature_delta
        = DELTA_INF ∧
      DELTA_INF = 10000000 ∧
      IVCAMThermalLoopParams.init.TempThreshold = 2 ∧
      IVCAMThermalLoopParams.init.TempThreshold <
        abs (d - ( IVCAMHardwareIO.construct base temperature params
          snapshot run).last_temperature_delta) := by
  refine ⟨rfl, rfl, rfl, ?_⟩
  have hd := abs_lt.mp h
  show (2 : ℚ) < abs (d - 10000000)
  rw [lt_abs]
  right
  linarith [hd.2]

/-- C10 at a concrete input: a first delta of 25 degrees against the example
engine. -/
theorem first_delta_exceeds_default_threshold_witness :
    abs (25 : CFloat) < 9999998 ∧
      exampleEngine.last_temperature_delta = DELTA_INF ∧
      IVCAMThermalLoopParams.init.TempThreshold <
        abs (25 - exampleEngine.last_temperature_delta) :=
  ⟨by norm_num,
   (first_delta_exceeds_default_threshold (flatCalibration 1) ⟨25, 25, 25⟩
      IVCAMThermalLoopParams.init (flatCalibration 1) true 25 (by norm_num)).1,
   (first_delta_exceeds_default_threshold (flatCalibration 1) ⟨25, 25, 25⟩
      IVCAMThermalLoopParams.init (flatCalibration 1) true 25 (by norm_num)).2.2.2⟩

/-- With the mutex free, `GetParameters` returns the reference to
`compensated_calibration` and leaves the engine as it was. -/
theorem GetParameters_eq ( s : IVCAMHardwareIO) (h : s.temperatureMutex = false) :
    s.GetParameters = some (CalibrationRef.compensated_calibration, s) := by
  cases s
  simp_all [ IVCAMHardwareIO.GetParameters]

/-- Read at the state of the call, the returned reference gives the current
snapshot. -/
theorem GetParameters_read_now ( s : IVCAMHardwareIO) (h : s.temperatureMutex = false) :
    s.GetParameters.map (fun p => p.1.read p.2) = some s.compensated_calibration := by
  rw [GetParameters_eq s h]
  rfl

/-- Read after the loop has published `c`, the reference returned earlier
gives `c`, whatever the snapshot was at the call. -/
theorem GetParameters_read_after_publish ( s : IVCAMHardwareIO)
    (h : s.temperatureMutex = false) (c : CameraCalibrationParameters) :
    (s.GetParameters.bind fun p => (p.2.publish c).map fun s2 => p.1.read s2) = some c := by
  rw [GetParameters_eq s h]
  cases s
  simp_all [ IVCAMHardwareIO.publish, CalibrationRef.read]

/-- C1 at the failing input: on the example engine (snapshot
`flatCalibration 1`, mutex free) `GetParameters` returns a reference and leaves
the engine unchanged; read at once the reference gives `flatCalibration 1`;
after the loop publishes `flatCalibration 2` the same reference gives
`flatCalibration 2`, whose `Rmax` is 2 and not 1. -/
theorem GetParameters_reference_follows_publish :
    ∃ r s1 s2,
      exampleEngine.GetParameters = some (r, s1) ∧ s1 = exampleEngine ∧
        r.read s1 = flatCalibration 1 ∧
        s1.publish (flatCalibration 2) = some s2 ∧
        r.read s2 = flatCalibration 2 ∧
        (r.read s1).Rmax = 1 ∧ (r.read s2).Rmax = 2 ∧
        (r.read s2).Rmax ≠ (r.read s1).Rmax := by
  refine ⟨CalibrationRef.compensated_calibration, exampleEngine,
    { exampleEngine with compensated_calibration := flatCalibration 2 },
    rfl, rfl, rfl, rfl, rfl, rfl, rfl, ?_⟩
  show (2 : ℚ) ≠ 1
  norm_num

/-! ## Requests on the wire -/

/-- A 32-bit number serialises to four bytes. -/
theorem le32_length (n : Nat) : (le32 n).length = 4 := rfl

/-- Bytes copied to the front of an array that can hold them are read back
unchanged. -/
theorem take_ofFn_getD {n : Nat} (bytes : List Byte) (z : Fin n → Byte)
    (h : bytes.length ≤ n) :
    (List.ofFn (fun i : Fin n => bytes.getD i.val (z i))).take bytes.length = bytes := by
  apply List.ext_getElem
  · rw [List.length_take, List.length_ofFn]
    exact Nat.min_eq_left h
  · intro i h1 h2
    rw [List.getElem_take, List.getElem_ofFn]
    simp [List.getD, List.getElem?_eq_getElem h2]

/-! ## The channel -/

/-- When the transport refuses the write, `send` fails with `TransportError`;
the write call was made. -/
theorem send_refused (device : Device) (mutex : TimedMutex) (request : IVCAMCommand)
    (hlock : ¬ request.TimeOut < (mutex.heldFor : Int))
    (h : ¬ (HW_MONITOR_BUFFER_SIZE : Int) < request.sizeOfSendCommandData)
    (hacc : device.accepts (serialise request) = false) :
    (send device mutex request).1 = .error .TransportError ∧
      (send device mutex request).2.written = device.written ++ [serialise request] := by
  unfold send
  rw [if_neg hlock, if_neg h]
  dsimp only
  rw [if_pos hacc]
  exact ⟨rfl, rfl⟩

/-- A successful two-way exchange: the channel is acquired, the write is
accepted, and a reply with the request's opcode and a payload of at most 1000
bytes arrives in time. `send` then succeeds and the response holds the reply's
payload and its length. -/
theorem send_answered (device : Device) (mutex : TimedMutex) (request : IVCAMCommand)
    (t : Nat) (r : List Byte)
    (hlock : ¬ request.TimeOut < (mutex.heldFor : Int))
    (hsize : ¬ (HW_MONITOR_BUFFER_SIZE : Int) < request.sizeOfSendCommandData)
    (hacc : device.accepts (serialise request) = true)
    (hdir : request.oneDirection = false)
    (hreply : device.reply (serialise request) = .answered t r)
    (ht : ¬ request.TimeOut < (t : Int))
    (hop : r.take 4 = le32 request.cmd.value)
    (hlen : (r.drop 4).length ≤ HW_MONITOR_BUFFER_SIZE) :
    ∃ response : IVCAMCommand,
      (send device mutex request).1 = .ok response ∧
        response.receivedCommandDataLength = ((r.drop 4).length : Nat) ∧
        response.received = r.drop 4 := by
  have hok : ¬ (r.take 4 ≠ le32 request.cmd.value ∨
      HW_MONITOR_BUFFER_SIZE < (r.drop 4).length) := by
    intro hbad
    rcases hbad with hbad | hbad
    · exact hbad hop
    · omega
  unfold send
  rw [if_neg hlock, if_neg hsize]
  dsimp only
  rw [hacc, hdir, hreply]
  dsimp only
  rw [if_neg (by simp), if_neg (by simp), if_neg ht, if_neg hok]
  refine ⟨_, rfl, rfl, ?_⟩
  show (List.ofFn fun i : Fin HW_MONITOR_BUFFER_SIZE =>
      (List.drop 4 r).getD i.val (request.receivedCommandData i)).take
        (Int.toNat ((List.drop 4 r).length : Nat)) = List.drop 4 r
  rw [Int.toNat_ofNat]
  exact take_ofFn_getD _ _ hlen

/-! ## Echo round trip -/

/-- When the exchange succeeds and the table decodes, the loader returns the
decoded calibration and temperature together with the default-initialised
thermal-loop parameters. -/
theorem read_f200_calibration_ok
    (decode : List Byte → Except Failure (CameraCalibrationParameters × IVCAMTemperatureData))
    (storage : IVCAMCommand) (device : Device) (mutex : TimedMutex)
    (response : IVCAMCommand) (table : CameraCalibrationParameters × IVCAMTemperatureData)
    (hsend : (send device mutex (IVCAMCommand.new storage .GetCalibrationTable)).1 =
      .ok response)
    (hdecode : decode response.received = .ok table) :
    (read_f200_calibration decode storage device mutex).1 =
      .ok (table.1, table.2, IVCAMThermalLoopParams.init) := by
  unfold read_f200_calibration
  dsimp only
  rw [hsend]
  dsimp only
  rw [hdecode]

/-- C7: the Variant A table `IVCAMCalibration` has no member of the type
`IVCAMThermalLoopParams` (nor has `CameraCalibrationParameters`), and the
thermal-loop configuration every successful load of that table returns is the
default-initialised `IVCAMThermalLoopParams`. That default has the loop enabled
(`IRThermalLoopEnable = 1`), `TimeOutA = 10000`, `TransitionTemp = 3`,
`TempThreshold = 2`, weights 1, 0, 0, offsets 0, and every reserved member 0;
the threshold is strictly positive and the weights sum to 1. -/
theorem read_f200_calibration_thermal_defaults
    (decode : List Byte → Except Failure (CameraCalibrationParameters × IVCAMTemperatureData))
    (storage : IVCAMCommand) (device : Device) (mutex : TimedMutex)
    (result : CameraCalibrationParameters × IVCAMTemperatureData × IVCAMThermalLoopParams)
    (h : (read_f200_calibration decode storage device mutex).1 = .ok result) :
    (∀ m ∈ IVCAMCalibration.members, m.type ≠ IVCAMThermalLoopParams.ctype) ∧
      (∀ m ∈ CameraCalibrationParameters.members, m.type ≠ IVCAMThermalLoopParams.ctype) ∧
      result.2.2 = IVCAMThermalLoopParams.init ∧
      result.2.2.IRThermalLoopEnable = 1 ∧
      result.2.2.TimeOutA = 10000 ∧
      result.2.2.TransitionTemp = 3 ∧
      result.2.2.TempThreshold = 2 ∧
      result.2.2.LiguriaTempWeight = 1 ∧
      result.2.2.IrTempWeight = 0 ∧
      result.2.2.AmbientTempWeight = 0 ∧
      result.2.2.FcxOffset = 0 ∧
      result.2.2.UxOffset = 0 ∧
      result.2.2.TimeOutB = 0 ∧
      result.2.2.TimeOutC = 0 ∧
      result.2.2.FcxSlopeC = 0 ∧
      result.2.2.UxSlopeC = 0 ∧
      result.2.2.Param1 = 0 ∧
      result.2.2.Param2 = 0 ∧
      result.2.2.Param3 = 0 ∧
      result.2.2.Param4 = 0 ∧
      result.2.2.Param5 = 0 ∧
      0 < result.2.2.TempThreshold ∧
      result.2.2.LiguriaTempWeight + result.2.2.IrTempWeight +
          result.2.2.AmbientTempWeight = 1 := by
  have hinit : result.2.2 = IVCAMThermalLoopParams.init := by
    unfold read_f200_calibration at h
    dsimp only at h
    split at h
    · exact absurd h (by simp)
    · split at h
      · exact absurd h (by simp)
      · have h1 := Except.ok.inj h
        rw [← h1]
  refine ⟨by decide, by decide, hinit, ?_⟩
  rw [hinit]
  simp [IVCAMThermalLoopParams.init]

/-- C7 at a concrete input: on a free channel, with a transport that answers
the `GetCalibrationTable` request with a 456-byte table, the load succeeds and
the thermal-loop parameters returned are the defaults, with threshold 2. -/
theorem read_f200_calibration_thermal_defaults_witness :
    (read_f200_calibration flatDecode zeroCommand tableDevice ⟨0⟩).1 =
        .ok (flatCalibration 1, ⟨25, 25, 25⟩, IVCAMThermalLoopParams.init) ∧
      IVCAMThermalLoopParams.init.IRThermalLoopEnable = 1 ∧
      IVCAMThermalLoopParams.init.TempThreshold = 2 := by
  have hdrop : (le32 0x3D ++ List.replicate 456 (0 : Byte)).drop 4 = List.replicate 456 0 :=
    List.drop_left' (le32_length _)
  obtain ⟨response, hsend, -, -⟩ :=
    send_answered tableDevice ⟨0⟩ (IVCAMCommand.new zeroCommand .GetCalibrationTable) 0
      (le32 0x3D ++ List.replicate 456 0) (by decide) (by decide) rfl rfl rfl (by decide)
      (List.take_left' (le32_length _))
      (by rw [hdrop, List.length_replicate]; decide)
  have hload := read_f200_calibration_ok flatDecode zeroCommand tableDevice ⟨0⟩ response
    (flatCalibration 1, ⟨25, 25, 25⟩) hsend rfl
  have h := read_f200_calibration_thermal_defaults flatDecode zeroCommand tableDevice ⟨0⟩
    (flatCalibration 1, ⟨25, 25, 25⟩, IVCAMThermalLoopParams.init) hload
  exact ⟨hload, h.2.2.2.1, h.2.2.2.2.2.2.1⟩

end f200
